import Mathlib

/-!
# EyeRecorder — verification of the multi-stage capture core

Shallow embedding of the EyeRecorder recording tool (a PyQt application that
pulls frames from a websocket camera, pushes them through a rotate → crop →
resize pipeline and saves timed multi-stage captures to disk).

Embedded modules:
* `src/recorder/core/image_processor.py`   — the frame pipeline;
* `src/recorder/network/websocket_manager.py` — inbound frame decoding;
* `src/recorder/config/settings.py`        — stage-plan validation;
* `src/recorder/core/recording_session.py` — the multi-stage session store;
* `src/recorder/core/multistage_manager.py` — the stage orchestrator.

External collaborators (OpenCV decode/warp/resize, the filesystem, wall-clock
time) are modelled as explicit function parameters or boolean oracles, so
every definition stays executable.  Qt signal emissions and dialogs are
modelled as an explicit effect list; logging carries no state and is omitted.
-/

namespace EyeRecorder

/-- A pixel value.  The colour encoding is irrelevant to every property in
this file, so one natural number per pixel suffices. -/
abbrev Px := Nat

/-- A decoded image: a list of pixel rows, as handed around between the
websocket decoder, the pipeline and the session store.  `image.shape[:2]`
corresponds to `(rows.length, length of the first row)`. -/
structure Image where
  rows : List (List Px)
deriving DecidableEq, Repr

/-- `image.shape[0]` — the number of rows. -/
def Image.height (i : Image) : Nat := i.rows.length

/-- `image.shape[1]` — the length of the first row (numpy stores a single
width for the whole array; see `Image.Rect`). -/
def Image.width (i : Image) : Nat := ((i.rows[0]?).getD []).length

/-- Rectangularity: every row has the image's width (true of every numpy
array; list-of-rows images need it as an explicit side condition). -/
def Image.Rect (i : Image) : Prop := ∀ r ∈ i.rows, r.length = i.width

/-- The numpy slice `image[y:y+h, x:x+w]` on the row list. -/
def Image.sliceAt (i : Image) (x y w h : Nat) : Image :=
  ⟨((i.rows.drop y).take h).map (fun r => (r.drop x).take w)⟩

/-- Python `int(q)` — truncation of a rational toward zero. -/
def intTrunc (q : Rat) : Int := q.num.tdiv q.den

namespace ImageProcessor

/-- Modelled external call: `cv2.resize(image, target_size, INTER_AREA)`
(used by `ImageProcessor.resize_to_target`, image_processor.py:89).  The
resampling filter itself is outside the repository; it is modelled as a
deterministic nearest-source resampler that returns an image of exactly the
requested `(width, height)`.  Theorems rely only on the output size and on
determinism, which is all the spec promises of the external call. -/
def cv2_resize (image : Image) (target_size : Nat × Nat) : Image :=
  ⟨(List.range target_size.2).map (fun i =>
    (List.range target_size.1).map (fun j =>
      ((image.rows[(i * image.height / target_size.2)]?).getD []).getD
        (j * image.width / target_size.1) 0))⟩

/-- `ImageProcessor.resize_to_target` (image_processor.py:77-89): resize to
the target size with `cv2.resize`. -/
def resize_to_target (image : Image) (target_size : Nat × Nat) : Image :=
  cv2_resize image target_size

/-- `ImageProcessor.rotate_image` (image_processor.py:17-46): angle `0`
returns the image unchanged; any other angle applies the external
`cv2.getRotationMatrix2D` / `cv2.warpAffine` bounding-box-expanding rotation.
The external warp is passed in as an arbitrary image transform `warp`;
theorems quantify over it. -/
def rotate_image (warp : Image → Int → Image) (image : Image) (angle : Int) :
    Image :=
  if angle = 0 then image else warp image angle

/-- `ImageProcessor.extract_roi` (image_processor.py:48-75): clamp the
requested rectangle `(x, y, w, h)` to the image bounds; if the clamped
rectangle has width or height ≤ 0, return the image unchanged, otherwise
return the sliced sub-region. -/
def extract_roi (image : Image) (roi_rect : Option (Int × Int × Int × Int)) :
    Image :=
  match roi_rect with
  | none => image
  | some (x, y, w, h) =>
    let width : Int := image.width
    let height : Int := image.height
    let x := max 0 (min x (width - 1))
    let y := max 0 (min y (height - 1))
    let w := min w (width - x)
    let h := min h (height - y)
    if w ≤ 0 ∨ h ≤ 0 then image
    else image.sliceAt x.toNat y.toNat w.toNat h.toNat

/-- The ROI step of `ImageProcessor.process_image_pipeline`
(image_processor.py:113-135), factored out verbatim: preview coordinates are
divided by `scale_factor` (Python `int()` truncation toward zero), clamped to
the image bounds, and the region is extracted only when both clamped sides
are strictly greater than 10 pixels; the whole step is skipped when no ROI
is supplied or `scale_factor ≤ 0`. -/
def pipeline_crop (image : Image) (roi_coords : Option (Int × Int × Int × Int))
    (scale_factor : Rat) : Image :=
  match roi_coords with
  | none => image
  | some (x, y, w, h) =>
    if 0 < scale_factor then
      let actual_x := intTrunc ((x : Rat) / scale_factor)
      let actual_y := intTrunc ((y : Rat) / scale_factor)
      let actual_w := intTrunc ((w : Rat) / scale_factor)
      let actual_h := intTrunc ((h : Rat) / scale_factor)
      let img_width : Int := image.width
      let img_height : Int := image.height
      let actual_x := max 0 (min actual_x (img_width - 1))
      let actual_y := max 0 (min actual_y (img_height - 1))
      let actual_w := min actual_w (img_width - actual_x)
      let actual_h := min actual_h (img_height - actual_y)
      if 10 < actual_w ∧ 10 < actual_h then
        image.sliceAt actual_x.toNat actual_y.toNat actual_w.toNat actual_h.toNat
      else image
    else image

/-- The ROI step of `ImageProcessor.process_image_pipeline_wysiwyg`
(image_processor.py:161-181): same clamping and `> 10` threshold, but the
coordinates are applied directly, without the scale-factor division. -/
def wysiwyg_crop (image : Image) (roi_coords : Option (Int × Int × Int × Int)) :
    Image :=
  match roi_coords with
  | none => image
  | some (x, y, w, h) =>
    let original_w : Int := image.width
    let original_h : Int := image.height
    let x := max 0 (min x (original_w - 1))
    let y := max 0 (min y (original_h - 1))
    let w := min w (original_w - x)
    let h := min h (original_h - y)
    if 10 < w ∧ 10 < h then image.sliceAt x.toNat y.toNat w.toNat h.toNat
    else image

/-- `ImageProcessor.process_image_pipeline` (image_processor.py:92-141):
rotate (when the angle is non-zero) → scale-corrected crop → resize to the
target size.  `none` input propagates to `none`. -/
def process_image_pipeline (warp : Image → Int → Image) (image : Option Image)
    (rotation_angle : Int) (roi_coords : Option (Int × Int × Int × Int))
    (target_size : Nat × Nat) (scale_factor : Rat) : Option Image :=
  match image with
  | none => none
  | some img =>
    let processed :=
      if rotation_angle ≠ 0 then rotate_image warp img rotation_angle else img
    let processed := pipeline_crop processed roi_coords scale_factor
    some (resize_to_target processed target_size)

/-- `ImageProcessor.process_image_pipeline_wysiwyg`
(image_processor.py:143-186): rotate (when the angle is non-zero) → direct
crop → resize to the target size. -/
def process_image_pipeline_wysiwyg (warp : Image → Int → Image)
    (image : Option Image) (rotation_angle : Int)
    (roi_coords : Option (Int × Int × Int × Int)) (target_size : Nat × Nat) :
    Option Image :=
  match image with
  | none => none
  | some img =>
    let processed :=
      if rotation_angle ≠ 0 then rotate_image warp img rotation_angle else img
    let processed := wysiwyg_crop processed roi_coords
    some (resize_to_target processed target_size)

end ImageProcessor

/-! ## Dimension lemmas for the pipeline stages -/

/-- The modelled `cv2.resize` always returns an image with the requested
number of rows. -/
lemma cv2_resize_height (img : Image) (tw th : Nat) :
    (ImageProcessor.cv2_resize img (tw, th)).height = th := by
  simp [ImageProcessor.cv2_resize, Image.height]

/-- The modelled `cv2.resize` returns an image with the requested width
whenever the requested height is positive. -/
lemma cv2_resize_width (img : Image) (tw th : Nat) (hth : 0 < th) :
    (ImageProcessor.cv2_resize img (tw, th)).width = tw := by
  simp [ImageProcessor.cv2_resize, Image.width, List.getElem?_map,
    List.getElem?_range, hth]

/-- Height of a numpy-style slice. -/
lemma sliceAt_height (img : Image) (x y w h : Nat) :
    (img.sliceAt x y w h).height = min h (img.height - y) := by
  simp [Image.sliceAt, Image.height]

/-- Width of a numpy-style slice of a rectangular image (the sliced window
must contain at least one row for the width to be observable). -/
lemma sliceAt_width (img : Image) (x y w h : Nat) (hrect : img.Rect)
    (hy : y < img.height) (hh : 0 < h) :
    (img.sliceAt x y w h).width = min w (img.width - x) := by
  have hyl : y < img.rows.length := hy
  have hrow : img.rows[y]? = some img.rows[y] := List.getElem?_eq_getElem hyl
  have hmem : img.rows[y] ∈ img.rows := List.getElem_mem hyl
  have hlen : (img.rows[y]).length = img.width := hrect _ hmem
  simp only [Image.sliceAt, Image.width, List.getElem?_map, List.getElem?_take,
    List.getElem?_drop, Nat.add_zero]
  rw [if_pos hh, hrow]
  simp [hlen]
  rfl

/-- The clamped x offset computed by `ImageProcessor.extract_roi`. -/
def roiX (img : Image) (x : Int) : Int := max 0 (min x ((img.width : Int) - 1))

/-- The clamped y offset computed by `ImageProcessor.extract_roi`. -/
def roiY (img : Image) (y : Int) : Int := max 0 (min y ((img.height : Int) - 1))

/-- The clamped width computed by `ImageProcessor.extract_roi`. -/
def roiW (img : Image) (x w : Int) : Int := min w ((img.width : Int) - roiX img x)

/-- The clamped height computed by `ImageProcessor.extract_roi`. -/
def roiH (img : Image) (y h : Int) : Int := min h ((img.height : Int) - roiY img y)

/-- `extract_roi` written with the named clamp functions. -/
lemma extract_roi_eq (img : Image) (x y w h : Int) :
    ImageProcessor.extract_roi img (some (x, y, w, h)) =
      if roiW img x w ≤ 0 ∨ roiH img y h ≤ 0 then img
      else img.sliceAt (roiX img x).toNat (roiY img y).toNat
        (roiW img x w).toNat (roiH img y h).toNat := by
  simp only [ImageProcessor.extract_roi, roiX, roiY, roiW, roiH]

/-- Dimensions and bounds of an in-range slice, stated over the integer
clamp values. -/
lemma sliceAt_dims (img : Image) (hrect : img.Rect) (X Y W H : Int)
    (hX0 : 0 ≤ X) (hY0 : 0 ≤ Y)
    (hW : W ≤ (img.width : Int) - X) (hH : H ≤ (img.height : Int) - Y)
    (hWpos : 0 < W) (hHpos : 0 < H) :
    (img.sliceAt X.toNat Y.toNat W.toNat H.toNat).height = H.toNat ∧
    (img.sliceAt X.toNat Y.toNat W.toNat H.toNat).width = W.toNat ∧
    X.toNat + W.toNat ≤ img.width ∧ Y.toNat + H.toNat ≤ img.height := by
  have hy : Y.toNat < img.height := by omega
  have hh : 0 < H.toNat := by omega
  refine ⟨?_, ?_, by omega, by omega⟩
  · rw [sliceAt_height]; omega
  · rw [sliceAt_width img _ _ _ _ hrect hy hh]; omega

/-! ## Claim C5 — pipeline output size and purity -/

/-- C5: for every rotation primitive, every input image, every rotation
angle, every crop rectangle (with its scale factor) and every positive
target size, `process_image_pipeline` returns an image whose dimensions are
exactly the target size; and the pipeline is a pure function of its inputs —
equal inputs give equal outputs (there is no hidden state parameter). -/
theorem process_image_pipeline_output_size (warp : Image → Int → Image)
    (img : Image) (angle : Int) (roi : Option (Int × Int × Int × Int))
    (tw th : Nat) (scale : Rat) (hw : 0 < tw) (hh : 0 < th) :
    (ImageProcessor.process_image_pipeline warp (some img) angle roi (tw, th)
        scale).map Image.width = some tw ∧
    (ImageProcessor.process_image_pipeline warp (some img) angle roi (tw, th)
        scale).map Image.height = some th ∧
    ∀ img' angle' roi' scale', img = img' → angle = angle' → roi = roi' →
      scale = scale' →
      ImageProcessor.process_image_pipeline warp (some img) angle roi (tw, th)
          scale
        = ImageProcessor.process_image_pipeline warp (some img') angle' roi'
            (tw, th) scale' := by
  refine ⟨?_, ?_, ?_⟩
  · simp [ImageProcessor.process_image_pipeline,
      ImageProcessor.resize_to_target, cv2_resize_width _ _ _ hh]
  · simp [ImageProcessor.process_image_pipeline,
      ImageProcessor.resize_to_target, cv2_resize_height]
  · rintro img' angle' roi' scale' rfl rfl rfl rfl; rfl

/-- Witness for C5: the pipeline applied to a concrete 2×2 image with a
30-degree rotation, a crop rectangle and target size 6×5. -/
theorem process_image_pipeline_output_size_witness :
    (ImageProcessor.process_image_pipeline (fun i _ => i)
        (some ⟨[[1, 2], [3, 4]]⟩) 30 (some (0, 0, 50, 50)) (6, 5) 1).map
        Image.width = some 6 ∧
    (ImageProcessor.process_image_pipeline (fun i _ => i)
        (some ⟨[[1, 2], [3, 4]]⟩) 30 (some (0, 0, 50, 50)) (6, 5) 1).map
        Image.height = some 5 ∧
    ∀ img' angle' roi' scale', (⟨[[1, 2], [3, 4]]⟩ : Image) = img' →
      (30 : Int) = angle' →
      (some (0, 0, 50, 50) : Option (Int × Int × Int × Int)) = roi' →
      (1 : Rat) = scale' →
      ImageProcessor.process_image_pipeline (fun i _ => i)
          (some ⟨[[1, 2], [3, 4]]⟩) 30 (some (0, 0, 50, 50)) (6, 5) 1
        = ImageProcessor.process_image_pipeline (fun i _ => i) (some img')
            angle' roi' (6, 5) scale' :=
  process_image_pipeline_output_size (fun i _ => i) ⟨[[1, 2], [3, 4]]⟩ 30
    (some (0, 0, 50, 50)) 6 5 1 (by decide) (by decide)

/-! ## Claim C7 — the crop step of the pipeline -/

/-- The x offset after scale correction and clamping, as computed by the
crop step of `process_image_pipeline` (image_processor.py:117-124). -/
def clampedX (img : Image) (x : Int) (scale : Rat) : Int :=
  roiX img (intTrunc ((x : Rat) / scale))

/-- The y offset after scale correction and clamping. -/
def clampedY (img : Image) (y : Int) (scale : Rat) : Int :=
  roiY img (intTrunc ((y : Rat) / scale))

/-- The width after scale correction and clamping. -/
def clampedW (img : Image) (x w : Int) (scale : Rat) : Int :=
  min (intTrunc ((w : Rat) / scale)) ((img.width : Int) - clampedX img x scale)

/-- The height after scale correction and clamping. -/
def clampedH (img : Image) (y h : Int) (scale : Rat) : Int :=
  min (intTrunc ((h : Rat) / scale)) ((img.height : Int) - clampedY img y scale)

/-- `pipeline_crop` written with the named clamp functions (for a positive
scale factor). -/
lemma pipeline_crop_eq (img : Image) (x y w h : Int) (scale : Rat)
    (hsc : 0 < scale) :
    ImageProcessor.pipeline_crop img (some (x, y, w, h)) scale =
      if 10 < clampedW img x w scale ∧ 10 < clampedH img y h scale then
        img.sliceAt (clampedX img x scale).toNat (clampedY img y scale).toNat
          (clampedW img x w scale).toNat (clampedH img y h scale).toNat
      else img := by
  simp only [ImageProcessor.pipeline_crop, clampedX, clampedY, clampedW,
    clampedH, roiX, roiY, if_pos hsc]

/-- Python `int()` of an integer is the integer itself. -/
lemma intTrunc_intCast (n : Int) : intTrunc (n : Rat) = n := by
  simp [intTrunc, Rat.num_intCast, Rat.den_intCast]

/-- Scale factor 1 leaves coordinates untouched. -/
lemma intTrunc_coe_div_one (x : Int) : intTrunc ((x : Rat) / 1) = x := by
  rw [div_one]; exact intTrunc_intCast x

/-- A 20×20 all-zero test image. -/
def img20 : Image := ⟨List.replicate 20 (List.replicate 20 0)⟩

/-- An all-constant image is rectangular. -/
lemma replicate_image_rect (m n : Nat) (v : Px) :
    (⟨List.replicate m (List.replicate n v)⟩ : Image).Rect := by
  intro r hr
  have hr' : r = List.replicate n v := List.eq_of_mem_replicate hr
  subst hr'
  cases m with
  | zero => simp at hr
  | succ k => simp [Image.width, List.replicate_succ]

/-- C7 counterexample: on a 20×20 image with requested crop rectangle
(0, 0, 5, 5) and scale factor 1, the clamped region is 5×5 — strictly
positive width and height — and yet the crop step of
`process_image_pipeline` passes the image through unchanged instead of
extracting the sub-region: the skip threshold in the code is 10
(`MIN_ROI_SIZE`), not 0. -/
theorem pipeline_crop_skips_positive_region :
    ImageProcessor.pipeline_crop img20 (some (0, 0, 5, 5)) 1 = img20 ∧
    clampedW img20 0 5 1 = 5 ∧ clampedH img20 0 5 1 = 5 ∧
    (img20.sliceAt 0 0 5 5).height = 5 ∧ (img20.sliceAt 0 0 5 5).width = 5 ∧
    ImageProcessor.pipeline_crop img20 (some (0, 0, 5, 5)) 1 ≠
      img20.sliceAt 0 0 5 5 := by
  have e1 : clampedX img20 0 1 = 0 := by
    rw [clampedX, intTrunc_coe_div_one]; decide
  have e2 : clampedY img20 0 1 = 0 := by
    rw [clampedY, intTrunc_coe_div_one]; decide
  have e3 : clampedW img20 0 5 1 = 5 := by
    rw [clampedW, intTrunc_coe_div_one, e1]; decide
  have e4 : clampedH img20 0 5 1 = 5 := by
    rw [clampedH, intTrunc_coe_div_one, e2]; decide
  have hcond : ¬((10 : Int) < 5 ∧ (10 : Int) < 5) := by decide
  have hred := pipeline_crop_eq img20 0 0 5 5 1 one_pos
  rw [e3, e4, if_neg hcond] at hred
  exact ⟨hred, e3, e4, by decide, by decide, by rw [hred]; decide⟩

/-- C7 (amended): the crop step of `process_image_pipeline` first clamps the
scale-corrected rectangle to the image bounds; extraction happens if and
only if both clamped sides strictly exceed 10 pixels (`MIN_ROI_SIZE`), in
which case the result is exactly the clamped in-bounds sub-region, with the
clamped dimensions; otherwise — in particular for every clamped region of
width or height ≤ 0 — the image passes through unchanged. -/
theorem pipeline_crop_clamps_and_thresholds (img : Image) (x y w h : Int)
    (scale : Rat) (hrect : img.Rect) (hsc : 0 < scale) :
    (10 < clampedW img x w scale ∧ 10 < clampedH img y h scale →
      ImageProcessor.pipeline_crop img (some (x, y, w, h)) scale
        = img.sliceAt (clampedX img x scale).toNat
            (clampedY img y scale).toNat (clampedW img x w scale).toNat
            (clampedH img y h scale).toNat ∧
      (ImageProcessor.pipeline_crop img (some (x, y, w, h)) scale).height
        = (clampedH img y h scale).toNat ∧
      (ImageProcessor.pipeline_crop img (some (x, y, w, h)) scale).width
        = (clampedW img x w scale).toNat ∧
      (clampedX img x scale).toNat + (clampedW img x w scale).toNat
        ≤ img.width ∧
      (clampedY img y scale).toNat + (clampedH img y h scale).toNat
        ≤ img.height) ∧
    (¬(10 < clampedW img x w scale ∧ 10 < clampedH img y h scale) →
      ImageProcessor.pipeline_crop img (some (x, y, w, h)) scale = img) := by
  constructor
  · rintro ⟨h1, h2⟩
    have hred := pipeline_crop_eq img x y w h scale hsc
    rw [if_pos ⟨h1, h2⟩] at hred
    have hX0 : 0 ≤ clampedX img x scale := le_max_left _ _
    have hY0 : 0 ≤ clampedY img y scale := le_max_left _ _
    have hW : clampedW img x w scale
        ≤ (img.width : Int) - clampedX img x scale := min_le_right _ _
    have hH : clampedH img y h scale
        ≤ (img.height : Int) - clampedY img y scale := min_le_right _ _
    obtain ⟨d1, d2, d3, d4⟩ := sliceAt_dims img hrect _ _ _ _ hX0 hY0 hW hH
      (by omega) (by omega)
    exact ⟨hred, by rw [hred]; exact d1, by rw [hred]; exact d2, d3, d4⟩
  · intro hn
    rw [pipeline_crop_eq img x y w h scale hsc, if_neg hn]

/-- A 30×30 all-zero test image. -/
def img30 : Image := ⟨List.replicate 30 (List.replicate 30 0)⟩

/-- Witness for the amended C7: a 30×30 image with crop rectangle
(2, 3, 20, 15) at scale factor 1 — both clamped sides exceed 10, so the
clamped sub-region is extracted. -/
theorem pipeline_crop_clamps_and_thresholds_witness :
    (10 < clampedW img30 2 20 1 ∧ 10 < clampedH img30 3 15 1 →
      ImageProcessor.pipeline_crop img30 (some (2, 3, 20, 15)) 1
        = img30.sliceAt (clampedX img30 2 1).toNat (clampedY img30 3 1).toNat
            (clampedW img30 2 20 1).toNat (clampedH img30 3 15 1).toNat ∧
      (ImageProcessor.pipeline_crop img30 (some (2, 3, 20, 15)) 1).height
        = (clampedH img30 3 15 1).toNat ∧
      (ImageProcessor.pipeline_crop img30 (some (2, 3, 20, 15)) 1).width
        = (clampedW img30 2 20 1).toNat ∧
      (clampedX img30 2 1).toNat + (clampedW img30 2 20 1).toNat
        ≤ img30.width ∧
      (clampedY img30 3 1).toNat + (clampedH img30 3 15 1).toNat
        ≤ img30.height) ∧
    (¬(10 < clampedW img30 2 20 1 ∧ 10 < clampedH img30 3 15 1) →
      ImageProcessor.pipeline_crop img30 (some (2, 3, 20, 15)) 1 = img30) :=
  pipeline_crop_clamps_and_thresholds img30 2 3 20 15 1
    (replicate_image_rect 30 30 0) one_pos

/-! ## Claim C10 — total safety of `extract_roi` -/

/-- C10: on any rectangular image with at least one row and one column, and
any integer rectangle — negative, oversized or degenerate — `extract_roi`
returns (it is a total function, so no exception is modelled) either the
original image unchanged or an in-bounds sub-image, and the result always
has at least one row and one column. -/
theorem extract_roi_safe (img : Image) (roi : Option (Int × Int × Int × Int))
    (hrect : img.Rect) (hH : 0 < img.height) (hW : 0 < img.width) :
    0 < (ImageProcessor.extract_roi img roi).height ∧
    0 < (ImageProcessor.extract_roi img roi).width ∧
    (ImageProcessor.extract_roi img roi = img ∨
      ∃ a b, a + (ImageProcessor.extract_roi img roi).width ≤ img.width ∧
        b + (ImageProcessor.extract_roi img roi).height ≤ img.height ∧
        ImageProcessor.extract_roi img roi
          = img.sliceAt a b (ImageProcessor.extract_roi img roi).width
              (ImageProcessor.extract_roi img roi).height) := by
  cases roi with
  | none => exact ⟨hH, hW, Or.inl rfl⟩
  | some r =>
    obtain ⟨x, y, w, h⟩ := r
    have hred := extract_roi_eq img x y w h
    by_cases hskip : roiW img x w ≤ 0 ∨ roiH img y h ≤ 0
    · rw [if_pos hskip] at hred
      rw [hred]
      exact ⟨hH, hW, Or.inl rfl⟩
    · rw [if_neg hskip] at hred
      push_neg at hskip
      obtain ⟨hw0, hh0⟩ := hskip
      have hX0 : 0 ≤ roiX img x := le_max_left _ _
      have hY0 : 0 ≤ roiY img y := le_max_left _ _
      have hWle : roiW img x w ≤ (img.width : Int) - roiX img x :=
        min_le_right _ _
      have hHle : roiH img y h ≤ (img.height : Int) - roiY img y :=
        min_le_right _ _
      obtain ⟨d1, d2, d3, d4⟩ := sliceAt_dims img hrect _ _ _ _ hX0 hY0 hWle
        hHle (by omega) (by omega)
      rw [hred]
      refine ⟨by omega, by omega, Or.inr ⟨(roiX img x).toNat,
        (roiY img y).toNat, by omega, by omega, ?_⟩⟩
      rw [d1, d2]

/-- Witness for C10: a 20×20 image with a wildly out-of-range rectangle. -/
theorem extract_roi_safe_witness :
    0 < (ImageProcessor.extract_roi img20 (some (-7, 3, 1000, -2))).height ∧
    0 < (ImageProcessor.extract_roi img20 (some (-7, 3, 1000, -2))).width ∧
    (ImageProcessor.extract_roi img20 (some (-7, 3, 1000, -2)) = img20 ∨
      ∃ a b, a + (ImageProcessor.extract_roi img20
          (some (-7, 3, 1000, -2))).width ≤ img20.width ∧
        b + (ImageProcessor.extract_roi img20
          (some (-7, 3, 1000, -2))).height ≤ img20.height ∧
        ImageProcessor.extract_roi img20 (some (-7, 3, 1000, -2))
          = img20.sliceAt a b
              (ImageProcessor.extract_roi img20 (some (-7, 3, 1000, -2))).width
              (ImageProcessor.extract_roi img20
                (some (-7, 3, 1000, -2))).height) :=
  extract_roi_safe img20 (some (-7, 3, 1000, -2))
    (replicate_image_rect 20 20 0) (by decide) (by decide)

/-! ## Frame Source — `websocket_manager.py` -/

/-- The mutable state of `WebSocketManager` that frame handling touches
(websocket_manager.py:31-52).  Connection bookkeeping that the handlers do
not read is omitted. -/
structure WSManagerState where
  current_image : Option Image
  image_count : Nat
deriving DecidableEq, Repr

/-- The dimension sanity check of `_handle_binary_message` /
`_decode_base64_image` (websocket_manager.py:252, 283):
`height > 0 and width > 0 and height < 10000 and width < 10000`. -/
def plausible_shape (image : Image) : Bool :=
  decide (0 < image.height) && decide (0 < image.width) &&
  decide (image.height < 10000) && decide (image.width < 10000)

/-- `WebSocketManager._handle_binary_message` (websocket_manager.py:238-267).
`imdecode` stands for the external `cv2.imdecode` over the raw byte payload
(`none` models a decode failure); `is_bytes` is the `isinstance(message,
bytes)` test — the non-bytes fallback path does nothing.  Every exception in
the body is caught by the surrounding handler, so the function is total;
logging and the `image_received` Qt signal carry no state and are omitted. -/
def handle_binary_message (imdecode : List Nat → Option Image)
    (s : WSManagerState) (message : List Nat) (is_bytes : Bool) :
    WSManagerState :=
  if is_bytes then
    match imdecode message with
    | none => s
    | some image =>
      if plausible_shape image then
        { s with current_image := some image,
                 image_count := s.image_count + 1 }
      else s
  else s

/-- `WebSocketManager._decode_base64_image` (websocket_manager.py:269-298).
`decode` stands for `base64.b64decode` composed with `cv2.imdecode`; `none`
models a failure of either step (both are caught). -/
def decode_base64_image (decode : String → Option Image)
    (s : WSManagerState) (base64_data : String) : WSManagerState :=
  match decode base64_data with
  | none => s
  | some image =>
    if plausible_shape image then
      { s with current_image := some image,
               image_count := s.image_count + 1 }
    else s

/-- C8: an inbound image payload that fails to decode, or decodes to
implausible dimensions (height or width ≤ 0, or ≥ the 10000 sanity bound),
is dropped: the stored current image and the image counter are left exactly
as they were, on both the binary and the base64 path.  Both handlers are
total Lean functions, reflecting that no exception escapes the
message-handling loop. -/
theorem bad_payload_dropped (imdecode : List Nat → Option Image)
    (decode : String → Option Image) (s : WSManagerState) (message : List Nat)
    (base64_data : String) (is_bytes : Bool)
    (h1 : ∀ img, imdecode message = some img → plausible_shape img = false)
    (h2 : ∀ img, decode base64_data = some img → plausible_shape img = false) :
    handle_binary_message imdecode s message is_bytes = s ∧
    decode_base64_image decode s base64_data = s := by
  constructor
  · unfold handle_binary_message
    cases hb : is_bytes with
    | false => rfl
    | true =>
      simp only [if_pos]
      cases hd : imdecode message with
      | none => rfl
      | some img => simp [h1 img hd]
  · unfold decode_base64_image
    cases hd : decode base64_data with
    | none => rfl
    | some img => simp [h2 img hd]

/-- An image with implausible dimensions (0×0, as produced by a corrupt
payload model). -/
def imgEmpty : Image := ⟨[]⟩

/-- Witness for C8: a decoder that fails on the binary path and one that
returns a 0×0 image on the base64 path; the state is unchanged by both. -/
theorem bad_payload_dropped_witness :
    handle_binary_message (fun _ => none)
        ⟨some img20, 3⟩ [255, 216] true = ⟨some img20, 3⟩ ∧
    decode_base64_image (fun _ => some imgEmpty)
        ⟨some img20, 3⟩ "AAAA" = ⟨some img20, 3⟩ :=
  bad_payload_dropped (fun _ => none) (fun _ => some imgEmpty)
    ⟨some img20, 3⟩ [255, 216] "AAAA" true
    (fun img h => by cases h)
    (fun img h => by cases h; rfl)

/-! ## Stage-plan validation — `settings.py` -/

/-- A stage configuration dictionary (`settings.py`,
`RecordingStageConfig`); `none` models a missing key. -/
structure Stage where
  name : Option String := none
  display_name : Option String := none
  description : Option String := none
  duration_seconds : Option Int := none
  interval_ms : Option Int := none
  voice_messages : Option (List String) := none
deriving DecidableEq, Repr

namespace RecordingStageConfig

/-- `RecordingStageConfig.validate_stage_config` (settings.py:210-228):
check the required fields in order, then positivity of the duration and the
interval, then non-emptiness of the message list.  (A present field is
modelled as already having the right type, so the `isinstance` half of each
check is vacuous.) -/
def validate_stage_config (stage_config : Stage) : Bool × String :=
  if stage_config.name.isNone then (false, "缺少必要字段: name")
  else if stage_config.description.isNone then
    (false, "缺少必要字段: description")
  else if stage_config.duration_seconds.isNone then
    (false, "缺少必要字段: duration_seconds")
  else if stage_config.interval_ms.isNone then
    (false, "缺少必要字段: interval_ms")
  else if stage_config.voice_messages.isNone then
    (false, "缺少必要字段: voice_messages")
  else if stage_config.duration_seconds.getD 0 ≤ 0 then
    (false, "duration_seconds 必须是正整数")
  else if stage_config.interval_ms.getD 0 ≤ 0 then
    (false, "interval_ms 必须是正整数")
  else if (stage_config.voice_messages.getD []).isEmpty then
    (false, "voice_messages 必须是非空列表")
  else (true, "OK")

end RecordingStageConfig

/-! ## Session Store — `recording_session.py` -/

/-- Observable side effects of the orchestrator and the session store:
dialogs, Qt signal emissions and filesystem folder creation.
`emitAllStagesCompleted` carries the argument list passed to
`all_stages_completed.emit(...)`; the signal is declared with no parameters
(multistage_manager.py:28), so the code always passes `[]`. -/
inductive Effect where
  | warnDialog (msg : String)
  | criticalDialog (msg : String)
  | createdSessionFolder
  | createdStageFolder (i : Nat)
  | emitStageStarted (n : Nat) (display_name : String)
  | emitRecordingStarted (n : Nat)
  | summaryWritten (ok : Bool)
  | reportWritten (ok : Bool)
  | packageWritten (ok : Bool)
  | infoDialog (total : Nat)
  | emitAllStagesCompleted (args : List Nat)
deriving DecidableEq, Repr

/-- The state of `MultiStageSession` (recording_session.py:251-265), with
the filesystem abstracted: each successfully created stage sub-folder is
represented by the number of `.jpg` files it currently holds (each folder is
freshly created, hence starts empty, and files are never deleted or
overwritten — filenames embed a per-stage sequence number). -/
structure MSSession where
  recording_count : Nat
  current_session_folder : Option String
  recording_stages : List Stage
  current_stage : Nat
  stage_folders : List Nat
  stage_recording_count : Nat
deriving DecidableEq, Repr

/-- `MultiStageSession.__init__` → `_create_session_folder` →
`_create_stage_folders` (recording_session.py:43-73, 257-291).  Filesystem
outcomes are oracles: `root_ok` says whether the timestamped session folder
could be created, `stage_oks i` whether stage `i`'s sub-folder could; only
the successfully created folders are kept in `stage_folders`, exactly as
`_create_stage_folders` appends only on success.  Folder naming (user name,
timestamp) is not modelled. -/
def mkMultiStageSession (stages : List Stage) (root_ok : Bool)
    (stage_oks : List Bool) : MSSession × List Effect :=
  let createdIdx :=
    (List.range stages.length).filter (fun i => stage_oks.getD i false)
  ({ recording_count := 0
     current_session_folder := if root_ok then some "session_folder" else none
     recording_stages := stages
     current_stage := 0
     stage_folders := if root_ok then List.replicate createdIdx.length 0 else []
     stage_recording_count := 0 },
   if root_ok then
     Effect.createdSessionFolder :: createdIdx.map Effect.createdStageFolder
   else [])

/-- `MultiStageSession.save_stage_image` (recording_session.py:293-374).
`save_ok` is the encode/write oracle: whether one of the two encode-write
attempts (`cv2.imencode`+`tofile`, then the `cv2.imwrite` fallback) left the
file on disk.  A `none` image, an out-of-range stage index (both guards, and
the `IndexError` from `recording_stages[current_stage]`, which the `except`
turns into a `None` return) or a failed write changes nothing; a successful
write appends the file to the current stage's folder and advances both
counters. -/
def save_stage_image (s : MSSession) (image : Option Image) (save_ok : Bool) :
    MSSession × Option String :=
  if image.isNone ∨ s.stage_folders.length ≤ s.current_stage then (s, none)
  else if s.recording_stages.length ≤ s.current_stage then (s, none)
  else if save_ok then
    ({ s with
        stage_folders := s.stage_folders.set s.current_stage
          (s.stage_folders.getD s.current_stage 0 + 1)
        stage_recording_count := s.stage_recording_count + 1
        recording_count := s.recording_count + 1 },
      some (((s.recording_stages.getD s.current_stage {}).name).getD "stage"))
  else (s, none)

/-- `MultiStageSession.next_stage` (recording_session.py:376-381). -/
def MSSession.next_stage (s : MSSession) : MSSession × Bool :=
  ({ s with current_stage := s.current_stage + 1, stage_recording_count := 0 },
   decide (s.current_stage + 1 < s.recording_stages.length))

/-- One entry of the `stages` array of `multi_stage_summary.json`
(recording_session.py:423-431). -/
structure StageSummaryEntry where
  stage_number : Nat
  stage_name : String
  duration_seconds : Int
  actual_count : Nat
  interval_ms : Int
deriving DecidableEq, Repr

/-- The `multi_stage_summary.json` payload (recording_session.py:405-414). -/
structure MultiStageSummary where
  total_images : Nat
  stages : List StageSummaryEntry
deriving DecidableEq, Repr

/-- One summary entry for stage `i` (recording_session.py:423-431): reads
`stage['name']`, `stage['description']` and `stage['interval_ms']` — a
missing key raises, which aborts the whole summary. -/
def summaryEntry (i : Nat) (stage : Stage) (count : Nat) :
    Option StageSummaryEntry :=
  match stage.name, stage.description, stage.interval_ms with
  | some n, some _, some iv =>
    some { stage_number := i + 1, stage_name := n,
           duration_seconds := stage.duration_seconds.getD 5,
           actual_count := count, interval_ms := iv }
  | _, _, _ => none

/-- The per-stage loop of `create_multi_stage_summary`
(recording_session.py:417-433): stage `i` contributes an entry exactly when
`i < len(stage_folders)`; its `actual_count` is the number of `.jpg` files
in folder `i`. -/
def summaryEntriesAux (i : Nat) :
    List Stage → List Nat → Option (List StageSummaryEntry)
  | [], _ => some []
  | _ :: _, [] => some []
  | st :: sts, c :: cs =>
    match summaryEntry i st c with
    | none => none
    | some e => (summaryEntriesAux (i + 1) sts cs).map (e :: ·)

/-- `MultiStageSession.create_multi_stage_summary`
(recording_session.py:398-445): `none` when the session folder is missing or
when building any stage entry raises (the `except` path returns `None`). -/
def create_multi_stage_summary (s : MSSession) : Option MultiStageSummary :=
  if s.current_session_folder.isNone then none
  else
    (summaryEntriesAux 0 s.recording_stages s.stage_folders).map
      (fun es => { total_images := s.recording_count, stages := es })

/-- The `session_info` block of `session_report.json`
(recording_session.py:175-184); only the total matters to the claims. -/
structure SessionReport where
  total_images : Nat
deriving DecidableEq, Repr

/-- `RecordingSession.create_session_report` (recording_session.py:168-212):
`none` when the session folder is missing; `total_images` is the session's
`recording_count`. -/
def create_session_report (s : MSSession) : Option SessionReport :=
  if s.current_session_folder.isNone then none
  else some { total_images := s.recording_count }

/-- The session-store operations a multi-stage run performs between session
creation and finalization. -/
inductive SessionOp where
  | save (image : Option Image) (save_ok : Bool)
  | nextStage
deriving Repr

/-- Run a sequence of session-store operations. -/
def runSession (s : MSSession) : List SessionOp → MSSession
  | [] => s
  | SessionOp.save img ok :: ops => runSession (save_stage_image s img ok).1 ops
  | SessionOp.nextStage :: ops => runSession s.next_stage.1 ops

/-- Bumping one cell of a list Nat bumps its sum. -/
lemma sum_set_getD_add_one (l : List Nat) (i : Nat) (h : i < l.length) :
    (l.set i (l.getD i 0 + 1)).sum = l.sum + 1 := by
  induction l generalizing i with
  | nil => simp at h
  | cons a t ih =>
    cases i with
    | zero => simp [List.set]; omega
    | succ n =>
      have hn : n < t.length := by simpa using h
      simp only [List.set, List.getD_cons_succ, List.sum_cons, ih n hn]
      omega

/-- The inductive session invariant: the running total equals the sum of the
per-folder file counts, and there are no more folders than stages. -/
def SessInv (s : MSSession) : Prop :=
  s.recording_count = s.stage_folders.sum ∧
  s.stage_folders.length ≤ s.recording_stages.length

/-- `save_stage_image` preserves the invariant. -/
lemma sessInv_save (s : MSSession) (img : Option Image) (save_ok : Bool)
    (h : SessInv s) : SessInv (save_stage_image s img save_ok).1 := by
  obtain ⟨h1, h2⟩ := h
  unfold save_stage_image
  by_cases hg1 : img.isNone = true ∨ s.stage_folders.length ≤ s.current_stage
  · rw [if_pos hg1]; exact ⟨h1, h2⟩
  · rw [if_neg hg1]
    by_cases hg2 : s.recording_stages.length ≤ s.current_stage
    · rw [if_pos hg2]; exact ⟨h1, h2⟩
    · rw [if_neg hg2]
      cases save_ok with
      | false => exact ⟨h1, h2⟩
      | true =>
        push_neg at hg1
        have hlt : s.current_stage < s.stage_folders.length := hg1.2
        refine ⟨?_, ?_⟩
        · show s.recording_count + 1
            = (s.stage_folders.set s.current_stage
                (s.stage_folders.getD s.current_stage 0 + 1)).sum
          rw [h1, sum_set_getD_add_one s.stage_folders s.current_stage hlt]
        · show (s.stage_folders.set s.current_stage
              (s.stage_folders.getD s.current_stage 0 + 1)).length
            ≤ s.recording_stages.length
          simpa using h2

/-- `next_stage` preserves the invariant. -/
lemma sessInv_next (s : MSSession) (h : SessInv s) :
    SessInv s.next_stage.1 := h

/-- Any operation sequence preserves the invariant. -/
lemma sessInv_run (s : MSSession) (ops : List SessionOp) (h : SessInv s) :
    SessInv (runSession s ops) := by
  induction ops generalizing s with
  | nil => exact h
  | cons op ops ih =>
    cases op with
    | save img ok => exact ih _ (sessInv_save s img ok h)
    | nextStage => exact ih _ (sessInv_next s h)

/-- A freshly created session satisfies the invariant. -/
lemma sessInv_mk (stages : List Stage) (root_ok : Bool)
    (stage_oks : List Bool) :
    SessInv (mkMultiStageSession stages root_ok stage_oks).1 := by
  constructor
  · cases root_ok <;> simp [mkMultiStageSession, List.sum_replicate]
  · cases root_ok <;> simp [mkMultiStageSession]
    exact le_trans (List.length_filter_le _ _) (by simp)

/-- When the summary entries are built, their actual counts are exactly the
per-folder counts. -/
lemma summaryEntriesAux_counts (i : Nat) (stages : List Stage)
    (folders : List Nat) (hlen : folders.length ≤ stages.length)
    (es : List StageSummaryEntry)
    (h : summaryEntriesAux i stages folders = some es) :
    es.map StageSummaryEntry.actual_count = folders := by
  induction stages generalizing i folders es with
  | nil =>
    cases folders with
    | nil => simp [summaryEntriesAux] at h; simp [← h]
    | cons c cs => simp at hlen
  | cons st sts ih =>
    cases folders with
    | nil => simp [summaryEntriesAux] at h; simp [← h]
    | cons c cs =>
      simp only [summaryEntriesAux] at h
      cases he : summaryEntry i st c with
      | none => rw [he] at h; simp at h
      | some e =>
        rw [he] at h
        cases hrest : summaryEntriesAux (i + 1) sts cs with
        | none => rw [hrest] at h; simp at h
        | some es' =>
          rw [hrest] at h
          have hes2 : es = e :: es' := by simpa using h.symm
          have hc : e.actual_count = c := by
            unfold summaryEntry at he
            cases hn : st.name <;> cases hd : st.description <;>
              cases hi : st.interval_ms <;> rw [hn, hd, hi] at he <;>
              simp at he
            simp [← he]
          have hrec := ih (i + 1) cs (by simpa using hlen) es' hrest
          subst hes2
          simp [hc, hrec]

/-- Finalization consistency, as a decidable check: when both the
multi-stage summary and the session report can be produced, both totals
equal the sum of the per-stage `actual_count` fields of the summary. -/
def finalization_totals_consistent (s : MSSession) : Bool :=
  match create_multi_stage_summary s, create_session_report s with
  | some summ, some report =>
    (summ.total_images
        == (summ.stages.map StageSummaryEntry.actual_count).sum) &&
    (report.total_images
        == (summ.stages.map StageSummaryEntry.actual_count).sum)
  | _, _ => true

/-- C2: from a fresh multi-stage session, after any sequence of frame saves
(successful or failed) and stage advances, the session's total frame count
equals the sum of the per-stage folder counts — including completed stages —
and whenever the finalization artifacts can be produced (in particular for
every run that reaches `AllComplete`), the `session_report` total image
count and the `multi_stage_summary` total both equal the sum of the
per-stage `actual_count` fields of the summary. -/
theorem session_total_equals_stage_sum (stages : List Stage) (root_ok : Bool)
    (stage_oks : List Bool) (ops : List SessionOp) :
    (runSession (mkMultiStageSession stages root_ok stage_oks).1
        ops).recording_count
      = (runSession (mkMultiStageSession stages root_ok stage_oks).1
          ops).stage_folders.sum ∧
    finalization_totals_consistent
        (runSession (mkMultiStageSession stages root_ok stage_oks).1 ops)
      = true := by
  have hinv := sessInv_run _ ops (sessInv_mk stages root_ok stage_oks)
  obtain ⟨h1, h2⟩ := hinv
  refine ⟨h1, ?_⟩
  unfold finalization_totals_consistent
  cases hsumm : create_multi_stage_summary
      (runSession (mkMultiStageSession stages root_ok stage_oks).1 ops) with
  | none => rfl
  | some summ =>
    cases hreport : create_session_report
        (runSession (mkMultiStageSession stages root_ok stage_oks).1 ops) with
    | none => rfl
    | some report =>
      unfold create_multi_stage_summary at hsumm
      by_cases hf : (runSession
          (mkMultiStageSession stages root_ok stage_oks).1
          ops).current_session_folder.isNone
      · rw [if_pos hf] at hsumm; simp at hsumm
      · rw [if_neg hf] at hsumm
        cases hes : summaryEntriesAux 0
            (runSession (mkMultiStageSession stages root_ok stage_oks).1
              ops).recording_stages
            (runSession (mkMultiStageSession stages root_ok stage_oks).1
              ops).stage_folders with
        | none => rw [hes] at hsumm; simp at hsumm
        | some es =>
          rw [hes] at hsumm
          have hcounts := summaryEntriesAux_counts 0 _ _ h2 es hes
          unfold create_session_report at hreport
          rw [if_neg hf] at hreport
          have hsumm2 : summ = { total_images := (runSession
              (mkMultiStageSession stages root_ok stage_oks).1
              ops).recording_count, stages := es } := by
            simpa using hsumm.symm
          have hreport2 : report = { total_images := (runSession
              (mkMultiStageSession stages root_ok stage_oks).1
              ops).recording_count } := by
            simpa using hreport.symm
          subst hsumm2
          subst hreport2
          simp [hcounts, h1]

/-! ## Stage Orchestrator — `multistage_manager.py` -/

/-- What the orchestrator reads from the `WebSocketManager` client
(websocket_manager.py:113-119): `is_connected()` is
`is_connected_flag and websocket is not None`; `get_current_image()` returns
the stored frame. -/
structure WSClient where
  is_connected_flag : Bool
  has_websocket : Bool
  current_image : Option Image
deriving Repr

/-- `WebSocketManager.is_connected` (websocket_manager.py:113-115). -/
def WSClient.is_connected (c : WSClient) : Bool :=
  c.is_connected_flag && c.has_websocket

/-- The processing-parameter dictionary returned by the display layer's
callback (consumed in `_process_image_for_saving`,
multistage_manager.py:210-246). -/
structure ProcessingParams where
  rotation_angle : Int := 0
  roi_enabled : Bool := false
  roi_coords : Option (Int × Int × Int × Int) := none
  scale_factor : Rat := 1
  preview_size : Option (Nat × Nat) := none
deriving Repr

/-- The mutable state of `MultiStageManager`
(multistage_manager.py:33-62).  Timers and the voice guide are booleans
(armed / alive); `stage_start_time` is `none` until a stage recording
starts (its numeric value is irrelevant to every claim, so the wall clock is
not modelled beyond presence). -/
structure Manager where
  recording_stages : List Stage
  current_stage : Nat
  stage_recording_count : Nat
  is_recording : Bool
  is_multi_stage_active : Bool
  session : Option MSSession
  websocket_client : Option WSClient
  voice_guide : Bool
  stage_timer : Bool
  stage_duration_timer : Bool
  duration_timer : Bool
  stage_start_time : Option Nat
deriving Repr

/-- `MultiStageManager.stop_multi_stage_recording`
(multistage_manager.py:94-106): clear both activity flags, stop all three
timers, stop and drop the voice guide. -/
def stop_multi_stage_recording (m : Manager) : Manager :=
  { m with is_multi_stage_active := false, is_recording := false,
           stage_timer := false, stage_duration_timer := false,
           duration_timer := false, voice_guide := false }

/-- `MultiStageManager._process_image_for_saving`
(multistage_manager.py:210-246): dispatch to the wysiwyg pipeline when the
parameters carry a preview size, otherwise to the scale-factor pipeline;
ROI coordinates are passed only when `roi_enabled`. -/
def process_image_for_saving (warp : Image → Int → Image)
    (image : Option Image) (p : ProcessingParams) : Option Image :=
  match image with
  | none => none
  | some img =>
    if p.preview_size.isSome then
      ImageProcessor.process_image_pipeline_wysiwyg warp (some img)
        p.rotation_angle (if p.roi_enabled then p.roi_coords else none)
        (240, 240)
    else
      ImageProcessor.process_image_pipeline warp (some img) p.rotation_angle
        (if p.roi_enabled then p.roi_coords else none) (240, 240)
        p.scale_factor

/-- `MultiStageManager._capture_stage_image`
(multistage_manager.py:157-208).  Returns the new state and the Python
return value.  `warp` is the external rotation primitive and `save_ok` the
filesystem oracle of `save_stage_image`.  Every exception inside the `try`
(a missing session, a missing stage entry or key, a zero stage duration in
the progress computation) is caught and becomes a `False` return, so the
function is total; the `progress_updated` signal and logging are not
modelled. -/
def capture_stage_image (warp : Image → Int → Image) (m : Manager)
    (params : ProcessingParams) (save_ok : Bool) : Manager × Bool :=
  if ¬m.is_multi_stage_active ∨ ¬m.is_recording then (m, false)
  else match m.websocket_client with
  | none => (m, false)
  | some client =>
    match client.current_image with
    | none => (m, false)
    | some current_image =>
      match process_image_for_saving warp (some current_image) params with
      | none => (m, false)
      | some processed =>
        match m.session with
        | none => (m, false)
        | some sess =>
          let r := save_stage_image sess (some processed) save_ok
          if r.2.isSome then
            let m' := { m with
              session := some r.1
              stage_recording_count := m.stage_recording_count + 1 }
            match m.recording_stages[m.current_stage]? with
            | none => (m', false)
            | some stage =>
              if m.stage_start_time.isNone then (m', false)
              else match stage.duration_seconds with
                | none => (m', false)
                | some d => if d = 0 then (m', false) else (m', true)
          else ({ m with session := some r.1 }, false)

/-- A sequence of capture-timer ticks, each with its own processing
parameters and save oracle; returns the final state and the per-tick return
values. -/
def capture_ticks (warp : Image → Int → Image) (m : Manager) :
    List (ProcessingParams × Bool) → Manager × List Bool
  | [] => (m, [])
  | (p, ok) :: ts =>
    let r := capture_stage_image warp m p ok
    let rest := capture_ticks warp r.1 ts
    (rest.1, r.2 :: rest.2)

/-- `MultiStageManager._complete_all_stages`
(multistage_manager.py:271-301): clear the flags, stop the timers, write the
summary, the report and the zip package (when a session exists), pop the
success dialog carrying `session.recording_count` when the package was
created, and finally emit the parameterless `all_stages_completed` signal. -/
def complete_all_stages (m : Manager) : Manager × List Effect :=
  let m' := { m with is_multi_stage_active := false, is_recording := false,
                     stage_timer := false, stage_duration_timer := false,
                     duration_timer := false }
  match m.session with
  | none => (m', [Effect.emitAllStagesCompleted []])
  | some sess =>
    let zip_ok := sess.current_session_folder.isSome
    (m', [Effect.summaryWritten (create_multi_stage_summary sess).isSome,
          Effect.reportWritten (create_session_report sess).isSome] ++
      (if zip_ok then
        [Effect.packageWritten true, Effect.infoDialog sess.recording_count]
       else [Effect.packageWritten false]) ++
      [Effect.emitAllStagesCompleted []])

/-- The result of an orchestrator call: new state, emitted effects, and the
Python outcome (`Except.error` models an exception escaping the call). -/
structure StepResult (α : Type) where
  state : Manager
  effects : List Effect
  ret : Except String α
deriving Repr

/-- `MultiStageManager._start_stage` (multistage_manager.py:108-128): at or
past the end of the plan, run `_complete_all_stages`; otherwise set the
current stage, reset the per-stage counter, emit `stage_started` (the
display name defaults to `stage['name']`, which is read unconditionally and
raises when missing), then build and start the voice guide from
`stage['voice_messages']`. -/
def start_stage (m : Manager) (stage_index : Nat) : StepResult Unit :=
  if h : stage_index < m.recording_stages.length then
    let stage := m.recording_stages.get ⟨stage_index, h⟩
    let m' := { m with current_stage := stage_index,
                       stage_recording_count := 0 }
    match stage.name with
    | none => { state := m', effects := [], ret := .error "KeyError: name" }
    | some nm =>
      let display_name := stage.display_name.getD nm
      match stage.voice_messages with
      | none =>
        { state := m',
          effects := [Effect.emitStageStarted (stage_index + 1) display_name],
          ret := .error "KeyError: voice_messages" }
      | some _ =>
        { state := { m' with voice_guide := true },
          effects := [Effect.emitStageStarted (stage_index + 1) display_name],
          ret := .ok () }
  else
    let r := complete_all_stages m
    { state := r.1, effects := r.2, ret := .ok () }

/-- `MultiStageManager._start_stage_recording`
(multistage_manager.py:130-151): ignore a stale index; otherwise set the
recording flag and the stage start time, then arm the capture timer from
`stage['interval_ms']` and the duration timer from
`stage['duration_seconds']` (each key read raises when missing — after the
recording flag was already set), and emit `recording_started`. -/
def start_stage_recording (m : Manager) (stage_index : Nat) :
    StepResult Unit :=
  if stage_index ≠ m.current_stage then
    { state := m, effects := [], ret := .ok () }
  else if h : stage_index < m.recording_stages.length then
    let stage := m.recording_stages.get ⟨stage_index, h⟩
    let m' := { m with is_recording := true, stage_recording_count := 0,
                       stage_start_time := some 0 }
    match stage.interval_ms with
    | none =>
      { state := m', effects := [], ret := .error "KeyError: interval_ms" }
    | some _ =>
      match stage.duration_seconds with
      | none =>
        { state := { m' with stage_timer := true }, effects := [],
          ret := .error "KeyError: duration_seconds" }
      | some _ =>
        { state := { m' with stage_timer := true,
                             stage_duration_timer := true },
          effects := [Effect.emitRecordingStarted (stage_index + 1)],
          ret := .ok () }
  else
    { state := m, effects := [], ret := .error "IndexError" }

/-- `MultiStageManager.start_multi_stage_recording`
(multistage_manager.py:68-92): reject with a warning dialog when the client
is missing or not connected — before touching any state; otherwise store the
client, build the `MultiStageSession` (creating folders on disk), reject
with a critical dialog when the session folder could not be created (the
client and the failed session HAVE been stored at that point), else set the
activity flags and start stage 0.  Note: the stage plan is never passed to
`RecordingStageConfig.validate_stage_config`. -/
def start_multi_stage_recording (m : Manager) (ws : Option WSClient)
    (root_ok : Bool) (stage_oks : List Bool) : StepResult Bool :=
  match ws with
  | none =>
    { state := m, effects := [Effect.warnDialog "请先连接设备！"],
      ret := .ok false }
  | some client =>
    if ¬client.is_connected then
      { state := m, effects := [Effect.warnDialog "请先连接设备！"],
        ret := .ok false }
    else
      let m1 := { m with websocket_client := some client }
      let sfx := mkMultiStageSession m.recording_stages root_ok stage_oks
      let m2 := { m1 with session := some sfx.1 }
      if sfx.1.current_session_folder.isNone then
        { state := m2,
          effects := sfx.2 ++ [Effect.criticalDialog "无法创建保存文件夹"],
          ret := .ok false }
      else
        let m3 := { m2 with is_multi_stage_active := true, current_stage := 0,
                            stage_recording_count := 0 }
        let r := start_stage m3 0
        { state := r.state, effects := sfx.2 ++ r.effects,
          ret := match r.ret with
                 | .ok _ => .ok true
                 | .error e => .error e }

/-! ## Claims C1, C3, C4, C6, C9 — orchestrator theorems -/

/-- C1: from any orchestrator state, once `stop_multi_stage_recording` has
returned, any number of subsequent capture ticks — with any processing
parameters, any rotation primitive and any filesystem outcomes — return
`False` and leave the state exactly as `stop` left it: no frame is saved,
and both the session total frame count and the per-stage frame count stay
unchanged. -/
theorem stop_halts_all_captures (warp : Image → Int → Image) (m : Manager)
    (ticks : List (ProcessingParams × Bool)) :
    capture_ticks warp (stop_multi_stage_recording m) ticks
      = (stop_multi_stage_recording m,
         List.replicate ticks.length false) := by
  have hone : ∀ p ok,
      capture_stage_image warp (stop_multi_stage_recording m) p ok
        = (stop_multi_stage_recording m, false) := by
    intro p ok
    simp [capture_stage_image, stop_multi_stage_recording]
  induction ticks with
  | nil => rfl
  | cons t ts ih =>
    obtain ⟨p, ok⟩ := t
    simp [capture_ticks, hone p ok, ih, List.replicate_succ]

/-- The frame the orchestrator would pull on a capture tick:
`websocket_client.get_current_image()`, `none` when there is no client. -/
def current_image_of (m : Manager) : Option Image :=
  m.websocket_client.bind WSClient.current_image

/-- C6: in every orchestrator state whose frame source has no current frame
(including states with no client at all), a capture tick returns `False`
and changes nothing — in particular neither the per-stage count nor the
session total; totality of the embedded function reflects that no exception
escapes the tick. -/
theorem capture_tick_without_frame_is_noop (warp : Image → Int → Image)
    (m : Manager) (params : ProcessingParams) (save_ok : Bool)
    (h : current_image_of m = none) :
    capture_stage_image warp m params save_ok = (m, false) := by
  unfold capture_stage_image
  by_cases hact : ¬m.is_multi_stage_active ∨ ¬m.is_recording
  · rw [if_pos hact]
  · rw [if_neg hact]
    cases hw : m.websocket_client with
    | none => rfl
    | some client =>
      have hci : client.current_image = none := by
        simpa [current_image_of, hw] using h
      dsimp only
      rw [hci]

/-- A state in the middle of a recording whose frame source has no frame. -/
def mgrNoFrame : Manager :=
  { recording_stages := [], current_stage := 0, stage_recording_count := 4,
    is_recording := true, is_multi_stage_active := true, session := none,
    websocket_client := some ⟨true, true, none⟩, voice_guide := false,
    stage_timer := true, stage_duration_timer := true,
    duration_timer := false, stage_start_time := some 0 }

/-- Witness for C6: a concrete active recording state with a connected but
frameless client. -/
theorem capture_tick_without_frame_is_noop_witness :
    capture_stage_image (fun i _ => i) mgrNoFrame {} true
      = (mgrNoFrame, false) :=
  capture_tick_without_frame_is_noop (fun i _ => i) mgrNoFrame {} true rfl

/-- C3: when the client is missing or reports not connected at the moment
`start_multi_stage_recording` is called, the call rejects immediately with
only the user-visible warning dialog: the returned state is exactly the
input state (so the orchestrator stays idle and no session object is
stored), the return value is `False`, and no folder-creation effect is
produced. -/
theorem start_rejected_when_disconnected (m : Manager) (ws : Option WSClient)
    (root_ok : Bool) (stage_oks : List Bool)
    (h : ∀ client, ws = some client → client.is_connected = false) :
    start_multi_stage_recording m ws root_ok stage_oks
      = { state := m, effects := [Effect.warnDialog "请先连接设备！"],
          ret := .ok false } := by
  cases ws with
  | none => rfl
  | some client =>
    have hc := h client rfl
    unfold start_multi_stage_recording
    simp [hc]

/-- An idle orchestrator holding the default single-stage plan used by the
witnesses. -/
def stageGood : Stage :=
  { name := some "half_open", display_name := some "半睁眼",
    description := some "眼睛半睁开，四处看，不要眨眼",
    duration_seconds := some 5, interval_ms := some 200,
    voice_messages := some ["请将眼睛半睁开"] }

/-- An idle orchestrator state. -/
def mgrIdle : Manager :=
  { recording_stages := [stageGood], current_stage := 0,
    stage_recording_count := 0, is_recording := false,
    is_multi_stage_active := false, session := none,
    websocket_client := none, voice_guide := false, stage_timer := false,
    stage_duration_timer := false, duration_timer := false,
    stage_start_time := none }

/-- A client whose connection flag is down (it still holds a stale frame). -/
def wsDisconnected : WSClient := ⟨false, true, some img20⟩

/-- Witness for C3: starting against a disconnected client changes
nothing. -/
theorem start_rejected_when_disconnected_witness :
    start_multi_stage_recording mgrIdle (some wsDisconnected) true [true]
      = { state := mgrIdle, effects := [Effect.warnDialog "请先连接设备！"],
          ret := .ok false } :=
  start_rejected_when_disconnected mgrIdle (some wsDisconnected) true [true]
    (fun client hc => by cases hc; rfl)

/-- A stage dictionary missing its `interval_ms` key (the scenario of the
spec's malformed-configuration test). -/
def stage_missing_interval : Stage :=
  { name := some "normal_blink", display_name := some "正常眨眼",
    description := some "眼睛正常睁开，四处看，自然眨眼",
    duration_seconds := some 5, interval_ms := none,
    voice_messages := some ["请保持眼睛正常睁开"] }

/-- An idle orchestrator configured with the malformed single-stage plan. -/
def mgrWithMalformedPlan : Manager :=
  { recording_stages := [stage_missing_interval], current_stage := 0,
    stage_recording_count := 0, is_recording := false,
    is_multi_stage_active := false, session := none,
    websocket_client := none, voice_guide := false, stage_timer := false,
    stage_duration_timer := false, duration_timer := false,
    stage_start_time := none }

/-- A connected client holding a frame. -/
def wsConnected : WSClient := ⟨true, true, some img20⟩

/-- C4: `validate_stage_config` does flag the stage missing `interval_ms`
with the field-level message, but `start_multi_stage_recording` never calls
it: with a connected client it creates the session folder and the stage
sub-folder, returns `True`, and the run only fails later — with a
`KeyError` — when the capture timer is armed from the missing key.  The
claim's required behaviour (rejection before any folder creation) does not
hold on the code. -/
theorem malformed_plan_not_rejected :
    RecordingStageConfig.validate_stage_config stage_missing_interval
      = (false, "缺少必要字段: interval_ms") ∧
    (start_multi_stage_recording mgrWithMalformedPlan (some wsConnected)
        true [true]).ret = Except.ok true ∧
    Effect.createdSessionFolder
      ∈ (start_multi_stage_recording mgrWithMalformedPlan (some wsConnected)
          true [true]).effects ∧
    Effect.createdStageFolder 0
      ∈ (start_multi_stage_recording mgrWithMalformedPlan (some wsConnected)
          true [true]).effects ∧
    (start_stage_recording
        (start_multi_stage_recording mgrWithMalformedPlan (some wsConnected)
          true [true]).state 0).ret = Except.error "KeyError: interval_ms" :=
  ⟨rfl, rfl, by decide, by decide, rfl⟩

/-- The session of a run that recorded 7 frames into its single stage. -/
def sess7 : MSSession :=
  { recording_count := 7, current_session_folder := some "session_folder",
    recording_stages := [stageGood], current_stage := 1,
    stage_folders := [7], stage_recording_count := 7 }

/-- An orchestrator state at the end of its last stage. -/
def mgrFinished : Manager :=
  { recording_stages := [stageGood], current_stage := 0,
    stage_recording_count := 7, is_recording := false,
    is_multi_stage_active := true, session := some sess7,
    websocket_client := some wsConnected, voice_guide := false,
    stage_timer := false, stage_duration_timer := false,
    duration_timer := true, stage_start_time := some 0 }

/-- C9 counterexample: at the end of a run that saved 7 frames, the
`all_stages_completed` signal is emitted with no arguments — the Qt signal
is declared parameterless (multistage_manager.py:28) — so the emitted
notification does not carry the final frame total; the total appears only
in the completion dialog. -/
theorem all_stages_signal_has_no_payload :
    Effect.emitAllStagesCompleted [7] ∉ (complete_all_stages mgrFinished).2 ∧
    Effect.emitAllStagesCompleted [] ∈ (complete_all_stages mgrFinished).2 ∧
    mgrFinished.session.map MSSession.recording_count = some 7 :=
  ⟨by decide, by decide, rfl⟩

/-- C9 (amended): when the last configured stage completes — `_start_stage`
reaching an index at or past the end of the plan — the orchestrator runs
`_complete_all_stages`: with a live session whose folder exists it attempts
the multi-stage summary, writes the session report, creates the session
archive, shows the completion dialog carrying the final frame total, and
emits the all-stages-completed notification — which is parameterless: the
frame total travels in the dialog, not in the signal. -/
theorem complete_all_stages_finalizes (m : Manager) (sess : MSSession)
    (i : Nat) (hs : m.session = some sess)
    (hf : sess.current_session_folder.isSome = true)
    (hi : m.recording_stages.length ≤ i) :
    start_stage m i
      = { state := (complete_all_stages m).1,
          effects := (complete_all_stages m).2, ret := .ok () } ∧
    complete_all_stages m
      = ({ m with is_multi_stage_active := false, is_recording := false,
                  stage_timer := false, stage_duration_timer := false,
                  duration_timer := false },
         [Effect.summaryWritten (create_multi_stage_summary sess).isSome,
          Effect.reportWritten true, Effect.packageWritten true,
          Effect.infoDialog sess.recording_count,
          Effect.emitAllStagesCompleted []]) := by
  constructor
  · unfold start_stage
    rw [dif_neg (by omega)]
  · obtain ⟨f, hf2⟩ := Option.isSome_iff_exists.mp hf
    unfold complete_all_stages
    rw [hs]
    simp [create_session_report, hf2]

/-- Witness for the amended C9 at the concrete finished state. -/
theorem complete_all_stages_finalizes_witness :
    start_stage mgrFinished 1
      = { state := (complete_all_stages mgrFinished).1,
          effects := (complete_all_stages mgrFinished).2, ret := .ok () } ∧
    complete_all_stages mgrFinished
      = ({ mgrFinished with is_multi_stage_active := false,
                            is_recording := false, stage_timer := false,
                            stage_duration_timer := false,
                            duration_timer := false },
         [Effect.summaryWritten (create_multi_stage_summary sess7).isSome,
          Effect.reportWritten true, Effect.packageWritten true,
          Effect.infoDialog sess7.recording_count,
          Effect.emitAllStagesCompleted []]) :=
  complete_all_stages_finalizes mgrFinished sess7 1 rfl rfl (by decide)

end EyeRecorder
